import Mathlib

/-!
Shallow embedding of the asynchronous job-polling core of the Topf/ASA
repository (`VideoGen_Agent.py`, `img_generator.py`) and of the
`rate_limit` decorator (`reddit_agent.py`), with theorems settling the
frozen claims about the natural-language specification.

Modelling conventions:
* A status-fetch collaborator (`runway.tasks.retrieve` for the RunwayML
  pollers, `requests.get` on the results endpoint for the Stability
  poller) is a function from the call index (0-based) to either a value
  or a raised exception, modelled as `Except String _`.
* Wall-clock time advances only at `time.sleep` calls; network calls are
  instantaneous.  Times and durations are natural numbers of seconds.
* The unbounded `while True` loops of `wait_for_image`/`wait_for_video`
  are given an explicit fuel parameter; exhausting the fuel yields the
  outcome `spinning`, meaning the loop is still running at that depth.
* Each loop also returns the trace of observable events it performed:
  status calls and sleeps (and, for the video path, file-system
  operations of the download step).
-/

namespace ASA

/-- A RunwayML task object as the pollers see it: `task.status` and
`task.output` (the ordered list of output locators; a missing or `null`
output list behaves like the empty list — in both cases `task.output[0]`
raises, and the handler below catches the raise). -/
structure Task where
  status : String
  output : List String
deriving DecidableEq, Repr

/-- Observable events of a poll loop: the `k`-th status call, and a sleep
of the given number of seconds. -/
inductive Event where
  | call (k : Nat)
  | sleep (secs : Nat)
deriving DecidableEq, Repr

/-- Outcome of a fueled poll loop: the Python function returned a value
(`some url` or Python `None`, modelled as `Option String`), or the fuel
ran out with the loop still spinning. -/
inductive PollOutcome where
  | done (r : Option String)
  | spinning
deriving DecidableEq, Repr

/-- Number of status calls recorded in a trace. -/
def countCalls (tr : List Event) : Nat :=
  (tr.filter fun e => match e with | .call _ => true | _ => false).length

/-- Number of sleeps recorded in a trace. -/
def countSleeps (tr : List Event) : Nat :=
  (tr.filter fun e => match e with | .sleep _ => true | _ => false).length

/-- The expected event trace of a RunwayML poll loop that sees `n`
non-terminal statuses and then a terminal one, starting at call index
`k`: calls and single sleeps of `interval` seconds strictly alternate,
and no sleep follows the terminal call. -/
def pollTrace (interval k : Nat) : Nat → List Event
  | 0 => [.call k]
  | n + 1 => .call k :: .sleep interval :: pollTrace interval (k + 1) n

/-- The `try` block of one `wait_for_image` iteration
(`VideoGen_Agent.py` lines 77-89), for the `k`-th status call.
`Except.error` marks a raise inside the block: a raising
`runway.tasks.retrieve`, or the `IndexError` of `task.output[0]` on an
empty output list.  `Except.ok (some r)` is `return r`; `Except.ok none`
falls through to the sleep. -/
def imageTryBlock (retrieve : Nat → Except String Task) (k : Nat) :
    Except String (Option (Option String)) :=
  match retrieve k with
  | .error e => .error e
  | .ok task =>
    if task.status = "SUCCEEDED" then
      match task.output with
      | [] => .error "IndexError"
      | url :: _ => .ok (some (some url))
    else if task.status = "FAILED" then
      .ok (some none)
    else
      .ok none

/-- `wait_for_image` (`VideoGen_Agent.py` lines 70-92), with fuel and an
event trace.  The `except Exception` handler turns every raise inside the
`try` block into `return None`; an error at the outer `Except` layer
would be an exception escaping the function. -/
def wait_for_image (retrieve : Nat → Except String Task) :
    Nat → Nat → Except String (PollOutcome × List Event)
  | 0, _ => .ok (.spinning, [])
  | fuel + 1, k =>
    match imageTryBlock retrieve k with
    | .error _e => .ok (.done none, [.call k])
    | .ok (some r) => .ok (.done r, [.call k])
    | .ok none =>
      match wait_for_image retrieve fuel (k + 1) with
      | .error e => .error e
      | .ok (out, tr) => .ok (out, .call k :: .sleep 5 :: tr)

/-- A `requests.get` streaming response as `download_video` sees it:
status code and the chunk list produced by `iter_content`. -/
structure HttpResp where
  status_code : Nat
  chunks : List (List Nat)
deriving DecidableEq, Repr

/-- File-system operations performed by `download_video`. -/
inductive FsOp where
  | mkdir (dir : String)
  | append (path : String) (chunk : List Nat)
deriving DecidableEq, Repr

/-- `download_video` (`VideoGen_Agent.py` lines 166-184).  The input is
the outcome of `requests.get(url, stream=True)` (a response, or a raised
exception).  Returns the Python return value and the list of file-system
operations performed, in order. -/
def download_video (resp : Except String HttpResp) (filename : String) :
    Option String × List FsOp :=
  match resp with
  | .error _e => (none, [])
  | .ok r =>
    if r.status_code = 200 then
      let filepath := "generated_videos/" ++ filename
      (some filepath, .mkdir "generated_videos" :: r.chunks.map (FsOp.append filepath))
    else
      (none, [])

/-- Bytes appended to `path` by a list of file-system operations. -/
def writtenBytes (path : String) (ops : List FsOp) : List Nat :=
  (ops.filterMap fun op =>
    match op with
    | .append p c => if p = path then some c else none
    | _ => none).flatten

/-- The `try` block of one `wait_for_video` iteration
(`VideoGen_Agent.py` lines 147-161): like the image one, but on
`SUCCEEDED` it downloads `task.output[0]` and returns the download's
result (the local path, or `None` if the download failed). -/
def videoTryBlock (retrieve : Nat → Except String Task)
    (http : String → Except String HttpResp) (task_id : String) (k : Nat) :
    Except String (Option (Option String) × List FsOp) :=
  match retrieve k with
  | .error e => .error e
  | .ok task =>
    if task.status = "SUCCEEDED" then
      match task.output with
      | [] => .error "IndexError"
      | url :: _ =>
        let dl := download_video (http url) ("runway_video_" ++ task_id ++ ".mp4")
        .ok (some dl.1, dl.2)
    else if task.status = "FAILED" then
      .ok (some none, [])
    else
      .ok (none, [])

/-- `wait_for_video` (`VideoGen_Agent.py` lines 140-164), with fuel, an
event trace, and the file-system operations of the download step. -/
def wait_for_video (retrieve : Nat → Except String Task)
    (http : String → Except String HttpResp) (task_id : String) :
    Nat → Nat → Except String (PollOutcome × List Event × List FsOp)
  | 0, _ => .ok (.spinning, [], [])
  | fuel + 1, k =>
    match videoTryBlock retrieve http task_id k with
    | .error _e => .ok (.done none, [.call k], [])
    | .ok (some r, ops) => .ok (.done r, [.call k], ops)
    | .ok (none, _ops) =>
      match wait_for_video retrieve http task_id fuel (k + 1) with
      | .error e => .error e
      | .ok (out, tr, ops) => .ok (out, .call k :: .sleep 10 :: tr, ops)

/-- The submit response of `send_async_generation_request`
(`img_generator.py`): `response.ok`, `response.status_code`, and the
`"id"` field of the JSON body (`response_dict.get("id", None)`), `none`
when the field is absent. -/
structure SubmitResp where
  ok : Bool
  status_code : Nat
  id? : Option String
deriving DecidableEq, Repr

/-- Lines 56-62 of `img_generator.py`: raise on a non-ok submit response
(`HTTP {status_code}`), then `assert generation_id is not None` — a
missing `"id"` field raises an `AssertionError` with the message
`Expected id in response`. -/
def extract_generation_id (resp : SubmitResp) : Except String String :=
  if resp.ok = false then
    .error ("HTTP " ++ toString resp.status_code)
  else
    match resp.id? with
    | none => .error "Expected id in response"
    | some i => .ok i

/-- A response of the results endpoint polled by
`send_async_generation_request`: `response.ok` and
`response.status_code` (202 while the job is still running). -/
structure PollResp where
  ok : Bool
  status_code : Nat
deriving DecidableEq, Repr

/-- The distinct exceptions that can escape the poll loop of
`send_async_generation_request`; each constructor corresponds to one
raise site / message in the Python code (a raising `requests.get`; the
`HTTP {status_code}` raise on a non-ok response; the
`Timeout after {timeout} seconds` raise). -/
inductive AsyncErr where
  | transport (msg : String)
  | http (code : Nat)
  | timeout (secs : Nat)
deriving DecidableEq, Repr

/-- The poll loop of `send_async_generation_request`
(`img_generator.py` lines 64-84): starting from `status_code = 202`,
repeatedly GET the results endpoint; raise on a raising or non-ok
response; `time.sleep(10)`; raise `Timeout` once elapsed time exceeds
`timeout` (`WORKER_TIMEOUT`, default 500); loop while the status code is
202, else return the response.  `elapsed` is seconds since `start`
(time advances only at sleeps), `k` the index of the next GET. -/
def send_async_poll (get : Nat → Except String PollResp) (timeout elapsed k : Nat) :
    Except AsyncErr PollResp × List Event :=
  match get k with
  | .error e => (.error (.transport e), [.call k])
  | .ok resp =>
    if resp.ok = false then
      (.error (.http resp.status_code), [.call k])
    else if h : timeout < elapsed + 10 then
      (.error (.timeout timeout), [.call k, .sleep 10])
    else if resp.status_code = 202 then
      let rest := send_async_poll get timeout (elapsed + 10) (k + 1)
      (rest.1, .call k :: .sleep 10 :: rest.2)
    else
      (.ok resp, [.call k, .sleep 10])
termination_by timeout + 10 - elapsed
decreasing_by omega

/-- The expected event trace of the `send_async_generation_request` poll
loop seeing `n` in-progress (202) responses and then a terminal one,
starting at call index `k`: every status call, the terminal one
included, is followed by a 10 second sleep. -/
def asyncTrace (k : Nat) : Nat → List Event
  | 0 => [.call k, .sleep 10]
  | n + 1 => .call k :: .sleep 10 :: asyncTrace (k + 1) n

/-- The mutable state captured by the `rate_limit(calls, period)`
decorator (`reddit_agent.py` lines 24-49): `last_reset` and
`calls_made`. -/
structure RLState where
  lastReset : Nat
  callsMade : Nat
deriving DecidableEq, Repr

/-- One call through the `rate_limit(calls, period)` wrapper, arriving
at wall-clock second `now`.  Mirrors the wrapper body: reset the window
if more than `period` seconds have passed; if the call budget is
exhausted, sleep for the remainder of the window and reset; then count
and invoke the wrapped function.  Returns the updated state and the time
at which the wrapped function is invoked. -/
def rate_limit_call (calls period : Nat) (s : RLState) (now : Nat) : RLState × Nat :=
  let s := if period < now - s.lastReset then RLState.mk now 0 else s
  if calls ≤ s.callsMade then
    let sleepTime := period - (now - s.lastReset)
    let invokeAt := if 0 < sleepTime then now + sleepTime else now
    (RLState.mk invokeAt 1, invokeAt)
  else
    (RLState.mk s.lastReset (s.callsMade + 1), now)

/-- A sequence of calls through a `rate_limit` wrapper.  `arrivals` are
the requested call times; the caller is sequential, so a call cannot
arrive before the previous wrapped invocation returned — arrival times
are clamped to the previous invocation time `prevT`.  Returns, per call,
the invocation time of the wrapped function and the start of the rate
window the invocation is counted in. -/
def rate_limit_run (calls period : Nat) :
    RLState → Nat → List Nat → List (Nat × Nat)
  | _, _, [] => []
  | s, prevT, a :: rest =>
    let step := rate_limit_call calls period s (max a prevT)
    (step.2, step.1.lastReset) :: rate_limit_run calls period step.1 step.2 rest

/-- Number of invocation times falling in the period-long half-open
window starting at `w`. -/
def invocationsIn (invs : List Nat) (w period : Nat) : Nat :=
  (invs.filter fun t => decide (w ≤ t) && decide (t < w + period)).length

instance {ε α : Type} [DecidableEq ε] [DecidableEq α] : DecidableEq (Except ε α) := fun a b =>
  match a, b with
  | .error e, .error f =>
    decidable_of_iff (e = f) ⟨fun h => by rw [h], fun h => by injection h⟩
  | .error _, .ok _ => isFalse fun h => by injection h
  | .ok _, .error _ => isFalse fun h => by injection h
  | .ok a, .ok b =>
    decidable_of_iff (a = b) ⟨fun h => by rw [h], fun h => by injection h⟩

/-! ### Helper lemmas about the poll loops -/

theorem countCalls_pollTrace (interval : Nat) : ∀ n k, countCalls (pollTrace interval k n) = n + 1 := by
  intro n
  induction n with
  | zero => intro k; rfl
  | succ n ih =>
    intro k
    have := ih (k + 1)
    simp [pollTrace, countCalls] at this ⊢
    omega

theorem countCalls_asyncTrace : ∀ n k, countCalls (asyncTrace k n) = n + 1 := by
  intro n
  induction n with
  | zero => intro k; rfl
  | succ n ih =>
    intro k
    have := ih (k + 1)
    simp [asyncTrace, countCalls] at this ⊢
    omega

/-- A `wait_for_image` run that sees `RUNNING` on calls `k, …, k+N-1` and
`SUCCEEDED` with a non-empty output list on call `k+N` returns the first
output locator, with the alternating call/sleep trace. -/
theorem wait_for_image_running_succ (retrieve : Nat → Except String Task)
    (url : String) (out : List String) :
    ∀ N k fuel, (∀ j, j < N → retrieve (k + j) = .ok ⟨"RUNNING", []⟩) →
      retrieve (k + N) = .ok ⟨"SUCCEEDED", url :: out⟩ → N < fuel →
      wait_for_image retrieve fuel k = .ok (.done (some url), pollTrace 5 k N) := by
  intro N
  induction N with
  | zero =>
    intro k fuel _h hterm hfuel
    obtain ⟨f, rfl⟩ : ∃ f, fuel = f + 1 := ⟨fuel - 1, by omega⟩
    have hterm0 : retrieve k = .ok ⟨"SUCCEEDED", url :: out⟩ := by simpa using hterm
    have hb : imageTryBlock retrieve k = .ok (some (some url)) := by
      simp [imageTryBlock, hterm0]
    simp [wait_for_image, hb, pollTrace]
  | succ N ih =>
    intro k fuel hrun hterm hfuel
    obtain ⟨f, rfl⟩ : ∃ f, fuel = f + 1 := ⟨fuel - 1, by omega⟩
    have h0 : retrieve k = .ok ⟨"RUNNING", []⟩ := by simpa using hrun 0 (by omega)
    have hb : imageTryBlock retrieve k = .ok none := by simp [imageTryBlock, h0]
    have hrec := ih (k + 1) f (fun j hj => by
        have := hrun (j + 1) (by omega)
        rwa [show k + (j + 1) = k + 1 + j from by omega] at this)
      (by rwa [show k + (N + 1) = k + 1 + N from by omega] at hterm) (by omega)
    simp [wait_for_image, hb, hrec, pollTrace]

/-- A `wait_for_video` run that sees `RUNNING` on calls `k, …, k+N-1` and
`FAILED` on call `k+N` returns `None`, with the alternating call/sleep
trace and no file-system activity. -/
theorem wait_for_video_running_failed (retrieve : Nat → Except String Task)
    (http : String → Except String HttpResp) (tid : String) (out : List String) :
    ∀ N k fuel, (∀ j, j < N → retrieve (k + j) = .ok ⟨"RUNNING", []⟩) →
      retrieve (k + N) = .ok ⟨"FAILED", out⟩ → N < fuel →
      wait_for_video retrieve http tid fuel k = .ok (.done none, pollTrace 10 k N, []) := by
  intro N
  induction N with
  | zero =>
    intro k fuel _h hterm hfuel
    obtain ⟨f, rfl⟩ : ∃ f, fuel = f + 1 := ⟨fuel - 1, by omega⟩
    have hterm0 : retrieve k = .ok ⟨"FAILED", out⟩ := by simpa using hterm
    have hb : videoTryBlock retrieve http tid k = .ok (some none, []) := by
      simp [videoTryBlock, hterm0]
    simp [wait_for_video, hb, pollTrace]
  | succ N ih =>
    intro k fuel hrun hterm hfuel
    obtain ⟨f, rfl⟩ : ∃ f, fuel = f + 1 := ⟨fuel - 1, by omega⟩
    have h0 : retrieve k = .ok ⟨"RUNNING", []⟩ := by simpa using hrun 0 (by omega)
    have hb : videoTryBlock retrieve http tid k = .ok (none, []) := by
      simp [videoTryBlock, h0]
    have hrec := ih (k + 1) f (fun j hj => by
        have := hrun (j + 1) (by omega)
        rwa [show k + (j + 1) = k + 1 + j from by omega] at this)
      (by rwa [show k + (N + 1) = k + 1 + N from by omega] at hterm) (by omega)
    simp [wait_for_video, hb, hrec, pollTrace]

/-- On an always-`RUNNING` collaborator, `wait_for_image` is still
spinning at every fuel depth: the loop never returns. -/
theorem wait_for_image_spin (retrieve : Nat → Except String Task)
    (h : ∀ j, retrieve j = .ok ⟨"RUNNING", []⟩) :
    ∀ fuel k, ∃ tr, wait_for_image retrieve fuel k = .ok (.spinning, tr) := by
  intro fuel
  induction fuel with
  | zero => intro k; exact ⟨[], rfl⟩
  | succ f ih =>
    intro k
    obtain ⟨tr, htr⟩ := ih (k + 1)
    have hb : imageTryBlock retrieve k = .ok none := by simp [imageTryBlock, h k]
    exact ⟨.call k :: .sleep 5 :: tr, by simp [wait_for_image, hb, htr]⟩

/-- On an always-`RUNNING` collaborator, `wait_for_video` is still
spinning at every fuel depth: the loop never returns. -/
theorem wait_for_video_spin (retrieve : Nat → Except String Task)
    (http : String → Except String HttpResp) (tid : String)
    (h : ∀ j, retrieve j = .ok ⟨"RUNNING", []⟩) :
    ∀ fuel k, ∃ tr ops, wait_for_video retrieve http tid fuel k = .ok (.spinning, tr, ops) := by
  intro fuel
  induction fuel with
  | zero => intro k; exact ⟨[], [], rfl⟩
  | succ f ih =>
    intro k
    obtain ⟨tr, ops, htr⟩ := ih (k + 1)
    have hb : videoTryBlock retrieve http tid k = .ok (none, []) := by
      simp [videoTryBlock, h k]
    exact ⟨.call k :: .sleep 10 :: tr, ops, by simp [wait_for_video, hb, htr]⟩

/-- On an always-in-progress (202) results endpoint, the
`send_async_generation_request` poll loop raises `Timeout` after
`(timeout - elapsed) / 10 + 1` status calls, each followed by a 10 second
sleep. -/
theorem send_async_poll_always202 (get : Nat → Except String PollResp) (timeout : Nat)
    (h202 : ∀ j, get j = .ok ⟨true, 202⟩) :
    ∀ elapsed k, send_async_poll get timeout elapsed k =
      (.error (.timeout timeout), asyncTrace k ((timeout - elapsed) / 10)) := by
  suffices h : ∀ n elapsed k, timeout + 10 - elapsed ≤ n →
      send_async_poll get timeout elapsed k =
        (.error (.timeout timeout), asyncTrace k ((timeout - elapsed) / 10)) by
    intro elapsed k
    exact h (timeout + 10 - elapsed) elapsed k le_rfl
  intro n
  induction n with
  | zero =>
    intro elapsed k hle
    have ht : timeout < elapsed + 10 := by omega
    have hdiv : (timeout - elapsed) / 10 = 0 := by omega
    rw [send_async_poll, h202 k, hdiv]
    simp [ht, asyncTrace]
  | succ n ih =>
    intro elapsed k hle
    by_cases ht : timeout < elapsed + 10
    · have hdiv : (timeout - elapsed) / 10 = 0 := by omega
      rw [send_async_poll, h202 k, hdiv]
      simp [ht, asyncTrace]
    · have hrec := ih (elapsed + 10) (k + 1) (by omega)
      have hdiv : (timeout - elapsed) / 10 = (timeout - (elapsed + 10)) / 10 + 1 := by omega
      rw [send_async_poll, h202 k, hdiv]
      simp [ht, hrec, asyncTrace]

/-- A `send_async_generation_request` poll loop that sees 202 on calls
`k, …, k+N-1` and a terminal 200 on call `k+N`, within the time budget,
returns the terminal response; every status call, the terminal one
included, is followed by a 10 second sleep. -/
theorem send_async_poll_202_then_200 (get : Nat → Except String PollResp) (timeout : Nat) :
    ∀ N elapsed k, (∀ j, j < N → get (k + j) = .ok ⟨true, 202⟩) →
      get (k + N) = .ok ⟨true, 200⟩ → elapsed + 10 * N + 10 ≤ timeout →
      send_async_poll get timeout elapsed k = (.ok ⟨true, 200⟩, asyncTrace k N) := by
  intro N
  induction N with
  | zero =>
    intro elapsed k _h hterm hb
    have h0 : get k = .ok ⟨true, 200⟩ := by simpa using hterm
    have hnt : ¬ timeout < elapsed + 10 := by omega
    rw [send_async_poll, h0]
    simp [hnt, asyncTrace]
  | succ N ih =>
    intro elapsed k hrun hterm hb
    have h0 : get k = .ok ⟨true, 202⟩ := by simpa using hrun 0 (by omega)
    have hnt : ¬ timeout < elapsed + 10 := by omega
    have hrec := ih (elapsed + 10) (k + 1) (fun j hj => by
        have := hrun (j + 1) (by omega)
        rwa [show k + (j + 1) = k + 1 + j from by omega] at this)
      (by rwa [show k + (N + 1) = k + 1 + N from by omega] at hterm) (by omega)
    rw [send_async_poll, h0]
    simp [hnt, hrec, asyncTrace]

/-! ### Helper lemmas about the rate limiter -/

/-- A wrapper call arriving after the current window expired resets the
window to `now` and invokes immediately. -/
theorem rate_limit_call_expired (calls period : Nat) (s : RLState) (now : Nat)
    (hc : 1 ≤ calls) (hA : period < now - s.lastReset) :
    rate_limit_call calls period s now = (⟨now, 1⟩, now) := by
  simp [rate_limit_call, hA, show ¬ calls ≤ 0 from by omega]

/-- A wrapper call arriving inside the current window with the call
budget exhausted sleeps for the remainder of the window: the wrapped
function is invoked exactly at `lastReset + period`, and the state is
reset to a fresh window starting there. -/
theorem rate_limit_call_exhausted (calls period : Nat) (s : RLState) (now : Nat)
    (hA : ¬ period < now - s.lastReset) (hB : calls ≤ s.callsMade)
    (hge : s.lastReset ≤ now) :
    rate_limit_call calls period s now =
      (⟨s.lastReset + period, 1⟩, s.lastReset + period) := by
  simp only [rate_limit_call, if_neg hA, if_pos hB]
  have h : (if 0 < period - (now - s.lastReset)
      then now + (period - (now - s.lastReset)) else now) = s.lastReset + period := by
    split_ifs with h0 <;> omega
  rw [h]

/-- A wrapper call arriving inside the current window with budget left
counts the call and invokes immediately. -/
theorem rate_limit_call_counting (calls period : Nat) (s : RLState) (now : Nat)
    (hA : ¬ period < now - s.lastReset) (hB : ¬ calls ≤ s.callsMade) :
    rate_limit_call calls period s now = (⟨s.lastReset, s.callsMade + 1⟩, now) := by
  simp [rate_limit_call, hA, hB]

/-- Window-count invariant of the `rate_limit` wrapper: in any run, the
number of wrapped-function invocations counted against the window
starting at `w` is at most `calls` — at most `calls - callsMade` for the
current window, none for windows already in the past. -/
theorem rate_limit_window_count (calls period : Nat) (hc : 1 ≤ calls) (hp : 1 ≤ period) :
    ∀ (arr : List Nat) (s : RLState) (prevT w : Nat),
      s.callsMade ≤ calls → s.lastReset ≤ prevT →
      ((rate_limit_run calls period s prevT arr).filter fun p => decide (p.2 = w)).length ≤
        (if w < s.lastReset then 0 else
          if w = s.lastReset then calls - s.callsMade else calls) := by
  intro arr
  induction arr with
  | nil =>
    intro s prevT w _ _
    simp [rate_limit_run]
  | cons a rest ih =>
    intro s prevT w hcm hpt
    have hnowge0 : s.lastReset ≤ max a prevT := le_trans hpt (le_max_right _ _)
    simp only [rate_limit_run]
    generalize hnd : max a prevT = now
    rw [hnd] at hnowge0
    by_cases hA : period < now - s.lastReset
    · rw [rate_limit_call_expired calls period s now hc hA]
      have hlt : s.lastReset < now := by omega
      have htail : ((rate_limit_run calls period ⟨now, 1⟩ now rest).filter
          fun p => decide (p.2 = w)).length ≤
          (if w < now then 0 else if w = now then calls - 1 else calls) :=
        ih ⟨now, 1⟩ now w hc le_rfl
      show (((now, now) :: rate_limit_run calls period ⟨now, 1⟩ now rest).filter
          fun p => decide (p.2 = w)).length ≤ _
      rw [List.filter_cons]
      by_cases hw : w = now
      · subst hw
        rw [if_pos (by simp), List.length_cons]
        rw [if_neg (by omega : ¬ w < w), if_pos rfl] at htail
        split_ifs <;> omega
      · rw [if_neg (by simpa using fun h => hw h.symm)]
        rcases lt_trichotomy w now with hlt2 | heq | hgt
        · rw [if_pos hlt2] at htail
          split_ifs <;> omega
        · exact absurd heq hw
        · rw [if_neg (by omega : ¬ w < now), if_neg hw] at htail
          split_ifs <;> omega
    · by_cases hB : calls ≤ s.callsMade
      · rw [rate_limit_call_exhausted calls period s now hA hB hnowge0]
        have hlt : s.lastReset < s.lastReset + period := by omega
        have htail : ((rate_limit_run calls period ⟨s.lastReset + period, 1⟩
            (s.lastReset + period) rest).filter fun p => decide (p.2 = w)).length ≤
            (if w < s.lastReset + period then 0 else
              if w = s.lastReset + period then calls - 1 else calls) :=
          ih ⟨s.lastReset + period, 1⟩ (s.lastReset + period) w hc le_rfl
        show (((s.lastReset + period, s.lastReset + period) ::
            rate_limit_run calls period ⟨s.lastReset + period, 1⟩
              (s.lastReset + period) rest).filter fun p => decide (p.2 = w)).length ≤ _
        rw [List.filter_cons]
        by_cases hw : w = s.lastReset + period
        · subst hw
          rw [if_pos (by simp), List.length_cons]
          rw [if_neg (by omega : ¬ s.lastReset + period < s.lastReset + period),
            if_pos rfl] at htail
          split_ifs <;> omega
        · rw [if_neg (by simpa using fun h => hw h.symm)]
          rcases lt_trichotomy w (s.lastReset + period) with hlt2 | heq | hgt
          · rw [if_pos hlt2] at htail
            split_ifs <;> omega
          · exact absurd heq hw
          · rw [if_neg (by omega : ¬ w < s.lastReset + period), if_neg hw] at htail
            split_ifs <;> omega
      · rw [rate_limit_call_counting calls period s now hA hB]
        have htail : ((rate_limit_run calls period ⟨s.lastReset, s.callsMade + 1⟩
            now rest).filter fun p => decide (p.2 = w)).length ≤
            (if w < s.lastReset then 0 else
              if w = s.lastReset then calls - (s.callsMade + 1) else calls) :=
          ih ⟨s.lastReset, s.callsMade + 1⟩ now w (show s.callsMade + 1 ≤ calls from by omega)
            hnowge0
        show (((now, s.lastReset) :: rate_limit_run calls period
            ⟨s.lastReset, s.callsMade + 1⟩ now rest).filter
              fun p => decide (p.2 = w)).length ≤ _
        rw [List.filter_cons]
        by_cases hw : w = s.lastReset
        · subst hw
          rw [if_pos (by simp), List.length_cons]
          rw [if_neg (by omega : ¬ s.lastReset < s.lastReset), if_pos rfl] at htail
          rw [if_neg (by omega : ¬ s.lastReset < s.lastReset), if_pos rfl]
          omega
        · rw [if_neg (by simpa using fun h => hw h.symm)]
          rcases lt_trichotomy w s.lastReset with hlt2 | heq | hgt
          · rw [if_pos hlt2] at htail
            split_ifs <;> omega
          · exact absurd heq hw
          · rw [if_neg (by omega : ¬ w < s.lastReset), if_neg hw] at htail
            split_ifs <;> omega

/-! ### Claim theorems -/

/-- C1 (amended): of the three pollers, only the poll loop of
`send_async_generation_request` is configured with a timeout budget
(`WORKER_TIMEOUT`, default 500 s) and a poll interval (10 s).  On an
always-in-progress collaborator it terminates with a Timeout failure
after `timeout / 10 + 1` polls, which is within one interval of
`⌈timeout / 10⌉`.  The `wait_for_image` and `wait_for_video` pollers
enforce no timeout at all and loop indefinitely on an always-`RUNNING`
collaborator. -/
theorem C1_timeout_amended (get : Nat → Except String PollResp)
    (retrieve : Nat → Except String Task) (timeout : Nat)
    (h202 : ∀ j, get j = .ok ⟨true, 202⟩)
    (hrun : ∀ j, retrieve j = .ok ⟨"RUNNING", []⟩) :
    ((send_async_poll get timeout 0 0).1 = .error (.timeout timeout) ∧
      countCalls (send_async_poll get timeout 0 0).2 = timeout / 10 + 1 ∧
      (timeout + 9) / 10 ≤ timeout / 10 + 1 ∧
      timeout / 10 + 1 ≤ (timeout + 9) / 10 + 1) ∧
    (∀ fuel k, ∃ tr, wait_for_image retrieve fuel k = .ok (.spinning, tr)) ∧
    (∀ fuel k http tid, ∃ tr ops,
      wait_for_video retrieve http tid fuel k = .ok (.spinning, tr, ops)) := by
  refine ⟨?_, fun fuel k => wait_for_image_spin retrieve hrun fuel k,
    fun fuel k http tid => wait_for_video_spin retrieve http tid hrun fuel k⟩
  have h := send_async_poll_always202 get timeout h202 0 0
  rw [h]
  refine ⟨rfl, ?_, by omega, by omega⟩
  simpa using countCalls_asyncTrace (timeout / 10) 0

theorem C1_timeout_amended_witness :
    (send_async_poll (fun _ => .ok ⟨true, 202⟩) 30 0 0).1 = .error (.timeout 30) ∧
    countCalls (send_async_poll (fun _ => .ok ⟨true, 202⟩) 30 0 0).2 = 4 ∧
    (∃ tr, wait_for_image (fun _ => .ok ⟨"RUNNING", []⟩) 7 0 = .ok (.spinning, tr)) := by
  obtain ⟨⟨h1, h2, _, _⟩, hspin, _⟩ :=
    C1_timeout_amended (fun _ => .ok ⟨true, 202⟩) (fun _ => .ok ⟨"RUNNING", []⟩) 30
      (fun _ => rfl) (fun _ => rfl)
  exact ⟨h1, h2, hspin 7 0⟩

/-- C1 (counterexample): `wait_for_image`, one of the pollers the claim
is about, never terminates on an always-`RUNNING` status-fetch
collaborator: at no fuel depth does the loop return a value, so the
claim "terminates … and never loops indefinitely" fails on it. -/
theorem C1_unbounded_counterexample :
    ¬ ∃ (n : Nat) (r : Option String) (tr : List Event),
      wait_for_image (fun _ => .ok ⟨"RUNNING", []⟩) n 0 = .ok (.done r, tr) := by
  rintro ⟨n, r, tr, h⟩
  obtain ⟨tr2, h2⟩ := wait_for_image_spin (fun _ => .ok ⟨"RUNNING", []⟩) (fun _ => rfl) n 0
  rw [h2] at h
  simp at h

/-- C2: if the status-fetch collaborator returns `RUNNING` on its first
`N` calls and `SUCCEEDED` (with a non-empty output-locator list) on call
`N+1`, then `wait_for_image` makes exactly `N+1` status calls and
returns the first element of the output-locator list. -/
theorem C2_calls_and_result (retrieve : Nat → Except String Task)
    (N fuel : Nat) (url : String) (out : List String)
    (hrun : ∀ j, j < N → retrieve j = .ok ⟨"RUNNING", []⟩)
    (hterm : retrieve N = .ok ⟨"SUCCEEDED", url :: out⟩)
    (hfuel : N < fuel) :
    ∃ tr, wait_for_image retrieve fuel 0 = .ok (.done (some url), tr) ∧
      countCalls tr = N + 1 := by
  refine ⟨pollTrace 5 0 N, ?_, countCalls_pollTrace 5 N 0⟩
  exact wait_for_image_running_succ retrieve url out N 0 fuel
    (fun j hj => by simpa using hrun j hj) (by simpa using hterm) hfuel

theorem C2_calls_and_result_witness :
    ∃ tr, wait_for_image
        (fun k => if k < 2 then .ok ⟨"RUNNING", []⟩ else .ok ⟨"SUCCEEDED", ["u1", "u2"]⟩) 5 0 =
      .ok (.done (some "u1"), tr) ∧ countCalls tr = 3 := by
  refine C2_calls_and_result _ 2 5 "u1" ["u2"] ?_ rfl (by omega)
  intro j hj
  match j, hj with
  | 0, _ => rfl
  | 1, _ => rfl

/-- C3 (amended): `wait_for_image` sleeps exactly 5 s and
`wait_for_video` exactly 10 s between consecutive status calls and both
return without any further sleep when a call returns a terminal status
(witnessed by the alternating `pollTrace` with no trailing sleep).  The
poll loop of `send_async_generation_request`, however, sleeps its 10 s
interval after every status call — the terminal one included — so it
performs one additional sleep after the terminal status before
returning (witnessed by `asyncTrace`, whose every call is followed by a
sleep). -/
theorem C3_sleep_pattern_amended (retrieveI retrieveV : Nat → Except String Task)
    (get : Nat → Except String PollResp) (http : String → Except String HttpResp)
    (tid url : String) (sucOut failOut : List String) (N fuel timeout : Nat) :
    ((∀ j, j < N → retrieveI j = .ok ⟨"RUNNING", []⟩) →
      retrieveI N = .ok ⟨"SUCCEEDED", url :: sucOut⟩ → N < fuel →
      wait_for_image retrieveI fuel 0 = .ok (.done (some url), pollTrace 5 0 N)) ∧
    ((∀ j, j < N → retrieveV j = .ok ⟨"RUNNING", []⟩) →
      retrieveV N = .ok ⟨"FAILED", failOut⟩ → N < fuel →
      wait_for_video retrieveV http tid fuel 0 = .ok (.done none, pollTrace 10 0 N, [])) ∧
    ((∀ j, j < N → get j = .ok ⟨true, 202⟩) →
      get N = .ok ⟨true, 200⟩ → 10 * N + 10 ≤ timeout →
      send_async_poll get timeout 0 0 = (.ok ⟨true, 200⟩, asyncTrace 0 N)) := by
  refine ⟨fun h1 h2 h3 => ?_, fun h1 h2 h3 => ?_, fun h1 h2 h3 => ?_⟩
  · exact wait_for_image_running_succ retrieveI url sucOut N 0 fuel
      (fun j hj => by simpa using h1 j hj) (by simpa using h2) h3
  · exact wait_for_video_running_failed retrieveV http tid failOut N 0 fuel
      (fun j hj => by simpa using h1 j hj) (by simpa using h2) h3
  · exact send_async_poll_202_then_200 get timeout N 0 0
      (fun j hj => by simpa using h1 j hj) (by simpa using h2) (by omega)

theorem C3_sleep_pattern_witness :
    wait_for_image
        (fun k => if k < 1 then .ok ⟨"RUNNING", []⟩ else .ok ⟨"SUCCEEDED", ["u"]⟩) 3 0 =
      .ok (.done (some "u"), pollTrace 5 0 1) ∧
    send_async_poll (fun k => if k < 1 then .ok ⟨true, 202⟩ else .ok ⟨true, 200⟩) 500 0 0 =
      (.ok ⟨true, 200⟩, asyncTrace 0 1) := by
  obtain ⟨h1, _h2, h3⟩ := C3_sleep_pattern_amended
    (fun k => if k < 1 then .ok ⟨"RUNNING", []⟩ else .ok ⟨"SUCCEEDED", ["u"]⟩)
    (fun k => if k < 1 then .ok ⟨"RUNNING", []⟩ else .ok ⟨"FAILED", []⟩)
    (fun k => if k < 1 then .ok ⟨true, 202⟩ else .ok ⟨true, 200⟩)
    (fun _ => .ok ⟨200, []⟩) "t" "u" [] [] 1 3 500
  refine ⟨h1 ?_ rfl (by omega), h3 ?_ rfl (by omega)⟩
  · intro j hj
    match j, hj with
    | 0, _ => rfl
  · intro j hj
    match j, hj with
    | 0, _ => rfl

/-- C3 (counterexample): in the poll loop of
`send_async_generation_request`, a status call that immediately returns
the terminal 200 status is still followed by a 10 s sleep before the
loop returns — contradicting "whenever a status call returns a terminal
status, the poller returns without performing any further sleep". -/
theorem C3_sleep_after_terminal_counterexample :
    send_async_poll (fun _ => .ok ⟨true, 200⟩) 500 0 0 =
      (.ok ⟨true, 200⟩, [.call 0, .sleep 10]) ∧
    0 < countSleeps [.call 0, .sleep 10] := by
  constructor
  · simp [send_async_poll]
  · decide

/-- C4 (amended): in the `wait_for_image`/`wait_for_video`/
`download_video` path every failure — remote `FAILED`, a raising
transport call, and a malformed `SUCCEEDED` payload — is surfaced to the
caller as the same flat `None`, so the failure kinds are not
distinguishable there; only `send_async_generation_request` raises
errors identifying their kind, where the Timeout failure is
distinguishable from transport and HTTP failures. -/
theorem C4_failures_amended (retrieve : Nat → Except String Task)
    (get : Nat → Except String PollResp) (fuel k timeout : Nat)
    (e : String) (out : List String) :
    (retrieve k = .ok ⟨"FAILED", out⟩ →
      wait_for_image retrieve (fuel + 1) k = .ok (.done none, [.call k])) ∧
    (retrieve k = .error e →
      wait_for_image retrieve (fuel + 1) k = .ok (.done none, [.call k])) ∧
    (retrieve k = .ok ⟨"SUCCEEDED", []⟩ →
      wait_for_image retrieve (fuel + 1) k = .ok (.done none, [.call k])) ∧
    ((∀ j, get j = .ok ⟨true, 202⟩) →
      (send_async_poll get timeout 0 0).1 = .error (.timeout timeout)) ∧
    (get k = .error e →
      send_async_poll get timeout 0 k = (.error (.transport e), [.call k])) ∧
    (∀ T c m, AsyncErr.timeout T ≠ .http c ∧ AsyncErr.timeout T ≠ .transport m) := by
  refine ⟨fun h => ?_, fun h => ?_, fun h => ?_, fun h => ?_, fun h => ?_,
    fun T c m => by constructor <;> intro hc <;> injection hc⟩
  · have hb : imageTryBlock retrieve k = .ok (some none) := by simp [imageTryBlock, h]
    simp [wait_for_image, hb]
  · have hb : imageTryBlock retrieve k = .error e := by simp [imageTryBlock, h]
    simp [wait_for_image, hb]
  · have hb : imageTryBlock retrieve k = .error "IndexError" := by simp [imageTryBlock, h]
    simp [wait_for_image, hb]
  · rw [send_async_poll_always202 get timeout h 0 0]
  · rw [send_async_poll, h]

theorem C4_failures_amended_witness :
    wait_for_image (fun _ => .ok ⟨"FAILED", ["x"]⟩) 1 0 = .ok (.done none, [.call 0]) ∧
    (send_async_poll (fun _ => .ok ⟨true, 202⟩) 20 0 0).1 = .error (.timeout 20) := by
  obtain ⟨h1, _, _, h4, _, _⟩ := C4_failures_amended (fun _ => .ok ⟨"FAILED", ["x"]⟩)
    (fun _ => .ok ⟨true, 202⟩) 0 0 20 "e" ["x"]
  exact ⟨h1 rfl, h4 fun _ => rfl⟩

/-- C4 (counterexample): a run of `wait_for_image` against a
collaborator reporting remote `FAILED` is byte-for-byte identical to a
run against a collaborator whose status call raises a transport error —
both return the untyped `None` — so the caller cannot tell a
RemoteFailure from a TransportError, and the failure is swallowed into
the default value `None`. -/
theorem C4_untyped_failures_counterexample :
    wait_for_image (fun _ => .ok ⟨"FAILED", []⟩) 1 0 =
      wait_for_image (fun _ => .error "ConnectionError") 1 0 ∧
    wait_for_image (fun _ => .ok ⟨"FAILED", []⟩) 1 0 = .ok (.done none, [.call 0]) :=
  ⟨rfl, rfl⟩

/-- C5: a status payload with status `SUCCEEDED` but an empty (or
missing) output-locator list makes `wait_for_image` return its failure
signal `None` — the raised `IndexError` is caught, the function does not
crash — and a submit response missing the required `id` field makes
`send_async_generation_request` raise the assertion failure
`Expected id in response`, a hard failure that is never silently
ignored. -/
theorem C5_malformed_failure (retrieve : Nat → Except String Task)
    (k fuel : Nat) (resp : SubmitResp) :
    (retrieve k = .ok ⟨"SUCCEEDED", []⟩ →
      wait_for_image retrieve (fuel + 1) k = .ok (.done none, [.call k])) ∧
    (resp.ok = true → resp.id? = none →
      extract_generation_id resp = .error "Expected id in response") := by
  constructor
  · intro h
    have hb : imageTryBlock retrieve k = .error "IndexError" := by simp [imageTryBlock, h]
    simp [wait_for_image, hb]
  · intro hok hid
    simp [extract_generation_id, hok, hid]

theorem C5_malformed_failure_witness :
    wait_for_image (fun _ => .ok ⟨"SUCCEEDED", []⟩) 1 0 = .ok (.done none, [.call 0]) ∧
    extract_generation_id ⟨true, 200, none⟩ = .error "Expected id in response" := by
  obtain ⟨h1, h2⟩ := C5_malformed_failure (fun _ => .ok ⟨"SUCCEEDED", []⟩) 0 0 ⟨true, 200, none⟩
  exact ⟨h1 rfl, h2 rfl rfl⟩

/-- C6: a status call that fails at the transport level surfaces as an
immediate hard failure with no retry of the transport call: in
`wait_for_image` a raising `retrieve` ends the run at once with `None`
after that single call, and in the `send_async_generation_request` poll
loop a raising or non-ok `requests.get` raises at once after that single
call. -/
theorem C6_transport_no_retry (retrieve : Nat → Except String Task)
    (get : Nat → Except String PollResp) (fuel k timeout elapsed code : Nat) (e : String) :
    (retrieve k = .error e →
      wait_for_image retrieve (fuel + 1) k = .ok (.done none, [.call k])) ∧
    (get k = .error e →
      send_async_poll get timeout elapsed k = (.error (.transport e), [.call k])) ∧
    (get k = .ok ⟨false, code⟩ →
      send_async_poll get timeout elapsed k = (.error (.http code), [.call k])) := by
  refine ⟨fun h => ?_, fun h => ?_, fun h => ?_⟩
  · have hb : imageTryBlock retrieve k = .error e := by simp [imageTryBlock, h]
    simp [wait_for_image, hb]
  · rw [send_async_poll, h]
  · rw [send_async_poll, h]
    simp

theorem C6_transport_no_retry_witness :
    wait_for_image (fun _ => .error "ConnectionError") 1 0 = .ok (.done none, [.call 0]) ∧
    send_async_poll (fun _ => .error "ConnectionError") 500 0 0 =
      (.error (.transport "ConnectionError"), [.call 0]) ∧
    send_async_poll (fun _ => .ok ⟨false, 404⟩) 500 0 0 = (.error (.http 404), [.call 0]) := by
  obtain ⟨h1, _, _⟩ := C6_transport_no_retry (fun _ => .error "ConnectionError")
    (fun _ => .error "ConnectionError") 0 0 500 0 404 "ConnectionError"
  obtain ⟨_, h2, _⟩ := C6_transport_no_retry (fun _ => .error "ConnectionError")
    (fun _ => .error "ConnectionError") 0 0 500 0 404 "ConnectionError"
  obtain ⟨_, _, h3⟩ := C6_transport_no_retry (fun _ => .error "ConnectionError")
    (fun _ => .ok ⟨false, 404⟩) 0 0 500 0 404 "ConnectionError"
  exact ⟨h1 rfl, h2 rfl, h3 rfl⟩

/-- C7: if the status-fetch collaborator returns `FAILED` on the very
first call, `wait_for_image` returns its remote-failure signal (`None`,
the flat failure signal of the observed design) after exactly one status
call and zero sleeps. -/
theorem C7_failed_first_call (retrieve : Nat → Except String Task) (fuel : Nat)
    (out : List String) (h : retrieve 0 = .ok ⟨"FAILED", out⟩) :
    wait_for_image retrieve (fuel + 1) 0 = .ok (.done none, [.call 0]) ∧
    countSleeps [.call 0] = 0 := by
  have hb : imageTryBlock retrieve 0 = .ok (some none) := by simp [imageTryBlock, h]
  exact ⟨by simp [wait_for_image, hb], rfl⟩

theorem C7_failed_first_call_witness :
    wait_for_image (fun _ => .ok ⟨"FAILED", []⟩) 4 0 = .ok (.done none, [.call 0]) ∧
    countSleeps [.call 0] = 0 :=
  C7_failed_first_call (fun _ => .ok ⟨"FAILED", []⟩) 3 [] rfl

/-- C8: `download_video`, given a 200-status streaming response, creates
the missing destination directory first and then appends every response
chunk to the target path — the bytes written to the path are exactly the
concatenation of the response's chunks; given a non-200 response (such
as 404) or a raising `requests.get`, it returns the failure signal
`None` and performs no file-system operation at all. -/
theorem C8_download_contract (r : HttpResp) (f e : String) :
    (r.status_code = 200 →
      download_video (.ok r) f =
        (some ("generated_videos/" ++ f),
          .mkdir "generated_videos" ::
            r.chunks.map (FsOp.append ("generated_videos/" ++ f))) ∧
      writtenBytes ("generated_videos/" ++ f) (download_video (.ok r) f).2 =
        r.chunks.flatten) ∧
    (r.status_code ≠ 200 → download_video (.ok r) f = (none, [])) ∧
    download_video (.error e) f = (none, []) := by
  refine ⟨fun h => ⟨?_, ?_⟩, fun h => ?_, rfl⟩
  · simp [download_video, h]
  · simp [download_video, writtenBytes, h, List.filterMap_map, Function.comp_def]
  · simp [download_video, h]

theorem C8_download_contract_witness :
    download_video (.ok ⟨200, [[1, 2], [3]]⟩) "v.mp4" =
      (some ("generated_videos/" ++ "v.mp4"),
        .mkdir "generated_videos" ::
          [[1, 2], [3]].map (FsOp.append ("generated_videos/" ++ "v.mp4"))) ∧
    writtenBytes ("generated_videos/" ++ "v.mp4")
        (download_video (.ok ⟨200, [[1, 2], [3]]⟩) "v.mp4").2 = [1, 2, 3] ∧
    download_video (.ok ⟨404, [[9]]⟩) "v.mp4" = (none, []) := by
  obtain ⟨hok, _, _⟩ := C8_download_contract ⟨200, [[1, 2], [3]]⟩ "v.mp4" "e"
  obtain ⟨_, hbad, _⟩ := C8_download_contract ⟨404, [[9]]⟩ "v.mp4" "e"
  exact ⟨(hok rfl).1, (hok rfl).2, hbad (by decide)⟩

/-- C9: `wait_for_image` and `wait_for_video` are total at their public
interface: for every behaviour of the status-fetch collaborator
(including raised exceptions at every raise point of the `try` body) no
exception escapes — the outer `Except` layer is always `ok` — and the
only possible returned values are an output locator / local path
(`done (some url)`) or `None` (`done none`), besides the fuel marker
`spinning` of a still-running loop. -/
theorem C9_pollers_total (retrieve : Nat → Except String Task)
    (http : String → Except String HttpResp) (tid : String) :
    ∀ fuel k,
      (∃ out tr, wait_for_image retrieve fuel k = .ok (out, tr) ∧
        (out = .spinning ∨ ∃ r : Option String, out = .done r)) ∧
      (∃ out tr ops, wait_for_video retrieve http tid fuel k = .ok (out, tr, ops) ∧
        (out = .spinning ∨ ∃ r : Option String, out = .done r)) := by
  intro fuel
  induction fuel with
  | zero => intro k; exact ⟨⟨.spinning, [], rfl, .inl rfl⟩, ⟨.spinning, [], [], rfl, .inl rfl⟩⟩
  | succ f ih =>
    intro k
    obtain ⟨⟨out, tr, htr, hsh⟩, outv, trv, opsv, htrv, hshv⟩ := ih (k + 1)
    constructor
    · match hb : imageTryBlock retrieve k with
      | .error e =>
        exact ⟨.done none, [.call k], by simp [wait_for_image, hb], .inr ⟨none, rfl⟩⟩
      | .ok (some r) =>
        exact ⟨.done r, [.call k], by simp [wait_for_image, hb], .inr ⟨r, rfl⟩⟩
      | .ok none =>
        exact ⟨out, .call k :: .sleep 5 :: tr, by simp [wait_for_image, hb, htr], hsh⟩
    · match hb : videoTryBlock retrieve http tid k with
      | .error e =>
        exact ⟨.done none, [.call k], [], by simp [wait_for_video, hb], .inr ⟨none, rfl⟩⟩
      | .ok (some r, ops) =>
        exact ⟨.done r, [.call k], ops, by simp [wait_for_video, hb], .inr ⟨r, rfl⟩⟩
      | .ok (none, ops) =>
        exact ⟨outv, .call k :: .sleep 10 :: trv, opsv,
          by simp [wait_for_video, hb, htrv], hshv⟩

/-- C10 (amended): for `rate_limit(calls, period)` with `calls ≥ 1` and
`period ≥ 1`, within each of the wrapper's own rate windows (identified
by the window-start value recorded at each invocation) the wrapped
function is invoked at most `calls` times, and once `calls` invocations
have occurred in the current, still-unexpired window the wrapper sleeps
until the window resets: the next invocation happens exactly at
`lastReset + period`.  (A single period-long wall-clock window straddling
a window boundary can nevertheless contain up to `2 * calls`
invocations — see the counterexample.) -/
theorem C10_window_bound_amended (calls period t0 w : Nat) (arr : List Nat)
    (hc : 1 ≤ calls) (hp : 1 ≤ period) :
    ((rate_limit_run calls period ⟨t0, 0⟩ t0 arr).filter fun p => decide (p.2 = w)).length ≤
      calls ∧
    (∀ (s : RLState) (now : Nat), calls ≤ s.callsMade → s.lastReset ≤ now →
      now - s.lastReset ≤ period →
      (rate_limit_call calls period s now).2 = s.lastReset + period) := by
  constructor
  · have h := rate_limit_window_count calls period hc hp arr ⟨t0, 0⟩ t0 w
      (show 0 ≤ calls from by omega) le_rfl
    refine le_trans h ?_
    split_ifs <;> omega
  · intro s now hB hge hle
    rw [rate_limit_call_exhausted calls period s now (by omega) hB hge]

theorem C10_window_bound_witness :
    ((rate_limit_run 2 60 ⟨0, 0⟩ 0 [1, 2, 3, 4, 5]).filter
      fun p => decide (p.2 = 0)).length ≤ 2 ∧
    (rate_limit_call 2 60 ⟨100, 2⟩ 130).2 = 160 := by
  obtain ⟨h1, h2⟩ := C10_window_bound_amended 2 60 0 0 [1, 2, 3, 4, 5] (by omega) (by omega)
  exact ⟨h1, h2 ⟨100, 2⟩ 130 (show 2 ≤ 2 from le_rfl) (show 100 ≤ 130 from by omega)
    (show 130 - 100 ≤ 60 from by omega)⟩

/-- C10 (counterexample): with `rate_limit(calls := 1, period := 60)`,
the wrapper created at time 0 and called at times 30 and 40 invokes the
wrapped function at times 30 and 60 — two invocations inside the single
60-second window starting at 30, exceeding `calls = 1`.  The first call
lands late in the initial window and the second sleeps only to that
window's end, not a full period. -/
theorem C10_sliding_window_counterexample :
    (rate_limit_run 1 60 ⟨0, 0⟩ 0 [30, 40]).map Prod.fst = [30, 60] ∧
    1 < invocationsIn ((rate_limit_run 1 60 ⟨0, 0⟩ 0 [30, 40]).map Prod.fst) 30 60 := by
  exact ⟨by decide, by decide⟩

end ASA
